import Mathlib

/-!
Shallow embedding of `src/ui/entity_browser.py` (STDM entity browser dialogs)
and verification of the specification claims about it.

The module is a PyQt dialog family.  We embed its observable state (table
model rows, combo-box items, notification bar, modal message boxes, emitted
signals, window title, hidden view columns) as an explicit record and each
slot/method as a state-transforming function.  Python exceptions that escape
a method are modelled with `Except`, carrying the mutated state at the point
the exception was raised, since Python side effects performed before a raise
persist.
-/

namespace STDM

/-- Attribute values stored in table cells and carried by signals.  Qt's
invalid `QVariant` (returned by `data()` on an out-of-range index, and
PyQt's `None`) is `nullV`. -/
inductive Value where
  | intV : Int → Value
  | strV : String → Value
  | nullV : Value
deriving DecidableEq, Repr

/-- Kinds of entries pushed into the dialog's `NotificationBar`. -/
inductive NotifKind where
  | warning
  | information
deriving DecidableEq, Repr

/-- Kinds of modal `QMessageBox` dialogs the browser shows. -/
inductive MsgBoxKind where
  | warningBox
  | criticalBox
deriving DecidableEq, Repr

/-- A modal message box shown to the user (kind and window title). -/
structure MsgBox where
  kind : MsgBoxKind
  boxTitle : String
deriving DecidableEq, Repr

/-- Modelled from the spec: the dialog state constants imported from
`admin_unit_manager` (`VIEW`, `MANAGE`, `SELECT`).  Their module is not in
the sources; the code combines them with `|` and tests them with `&`
(`state & MANAGE != 0`, `self._mode == SELECT`), so they are modelled as
distinct bit flags. -/
def VIEW : Nat := 1

/-- Modelled from the spec: the `MANAGE` state flag (see `VIEW`). -/
def MANAGE : Nat := 2

/-- Modelled from the spec: the `SELECT` state flag (see `VIEW`). -/
def SELECT : Nat := 4

/-- An entry of `_searchable_columns` / the filter combo box: the column
header (the `OrderedDict` key and combo display text) together with the
item data stored via `addItem(header, info)`: the column name and its
header index. -/
structure ComboItem where
  header : String
  colName : String
  headerIdx : Nat
deriving DecidableEq, Repr

/-- A configured entity column as `_init_entity_columns` consumes it:
its `name`, the text returned by `c.header()`, the `searchable` flag,
whether it is a `VirtualColumn` / `MultipleSelectColumn`, the
`model_attribute_name` used for multiple-select columns, and the value
formatter produced by `ColumnWidgetRegistry.factory(c.TYPE_INFO)` when one
is registered (`none` models a factory lookup returning `None`). -/
structure EntityColumn where
  name : String
  headerText : String
  searchable : Bool
  isVirtual : Bool
  isMultipleSelect : Bool
  model_attribute_name : String
  formatter : Option (Value → Value)

/-- The observable state of an `EntityBrowser` dialog.  `mode` is the value
stored by `SupportsManageMixin.__init__(self, state)` and read by
`onAccept` as `self._mode`.  `dbmodelSome` records whether
`entity_model(entity)` returned a model (`self._dbmodel is not None`).
`tableModel = none` models `self._tableModel = None` before
`_initializeData` has populated it.  `emitted` collects the payloads of
`recordSelected.emit`. -/
structure BrowserState where
  entityShortName : String
  mode : Nat
  dbmodelSome : Bool
  dataInitialized : Bool
  headers : List String
  entityAttrs : List String
  cellFormatters : List (String × (Value → Value))
  searchableColumns : List ComboItem
  filterComboItems : List ComboItem
  tableModel : Option (List (List Value))
  proxyFilterColumn : Option Nat
  hiddenColumns : List Nat
  viewSortColumn : Option Nat
  viewSelection : Option Value
  selectItem : Option Value
  notifBar : List (NotifKind × String)
  msgBoxes : List MsgBox
  emitted : List Value
  windowTitle : String

/-- The warning text of `_selected_record_ids` for an empty selection. -/
def pleaseSelectMsg : String := "Please select a record from the table."

/-- The information text of `onAccept` after emitting `recordSelected`. -/
def recordSelectedMsg : String := "Record has been selected"

/-- `EntityBrowser.title`: `'{0} {1}'.format(self._entity.short_name, 'Records')`. -/
def title (s : BrowserState) : String :=
  s.entityShortName ++ " Records"

/-- Reading `index(r, c).data(Qt.DisplayRole)` from the table model rows:
an out-of-range index yields an invalid variant, i.e. `nullV`. -/
def getCell (rows : List (List Value)) (r c : Nat) : Value :=
  match rows.get? r with
  | some row => (row.get? c).getD Value.nullV
  | none => Value.nullV

/-- `EntityBrowser._selected_record_ids`.  The selection is given as the
list of selected source-row numbers (`selectedRows(0)` already mapped
through `mapToSource`); the method clears the notification bar, warns and
returns `[]` on an empty selection, and otherwise returns the column-0
data of every selected row. -/
def selected_record_ids (s : BrowserState) (selRows : List Nat) :
    List Value × BrowserState :=
  let s1 := { s with notifBar := [] }
  if selRows.length = 0 then
    ([], { s1 with notifBar := s1.notifBar ++ [(NotifKind.warning, pleaseSelectMsg)] })
  else
    (selRows.map (fun r => getCell (s1.tableModel.getD []) r 0), s1)

/-- `EntityBrowser.onAccept`: fetch the selected ids; do nothing further if
none; in `SELECT` mode emit `recordSelected` with the first selected id and
push an information notification. -/
def onAccept (s : BrowserState) (selRows : List Nat) : BrowserState :=
  let r := selected_record_ids s selRows
  let selIDs := r.1
  let s1 := r.2
  if selIDs.length = 0 then s1
  else if s1.mode = SELECT then
    { s1 with
      emitted := s1.emitted ++ [selIDs.headD Value.nullV],
      notifBar := s1.notifBar ++ [(NotifKind.information, recordSelectedMsg)] }
  else s1

/-- The external world consulted while loading records: the database
table's actual column names (`table_column_names`), the configured entity
columns (`self._entity.columns.values()` in order), the result of
`queryObject().count()` and of `queryObject().filter().all()`.  An
`Except.error` models the query raising an exception; each returned record
maps an attribute name to `getattr`'s outcome (which may itself raise). -/
structure LoadEnv where
  dbColumns : List String
  entityColumns : List EntityColumn
  countResult : Except String Nat
  queryResult : Except String (List (String → Except String Value))

/-- Dictionary assignment `d[k] = v`: replace the value at an existing key
in place, otherwise append the new binding. -/
def dictInsert (l : List (String × (Value → Value))) (k : String) (v : Value → Value) :
    List (String × (Value → Value)) :=
  if l.any (fun e => e.1 = k) then
    l.map (fun e => if e.1 = k then (k, v) else e)
  else l ++ [(k, v)]

/-- Dictionary lookup `k in d` / `d[k]`. -/
def dictFind (l : List (String × (Value → Value))) (k : String) : Option (Value → Value) :=
  (l.find? (fun e => e.1 = k)).map (·.2)

/-- `OrderedDict` assignment for `_searchable_columns` (keyed by the column
header): replace the value of an existing key keeping its position,
otherwise append. -/
def odInsert (l : List ComboItem) (it : ComboItem) : List ComboItem :=
  if l.any (fun e => e.header = it.header) then
    l.map (fun e => if e.header = it.header then it else e)
  else l ++ [it]

/-- Accumulator of the column loop in `_init_entity_columns`: the header
texts, entity attribute names, cell formatters, searchable columns and
missing-column names collected so far, plus the running `header_idx`. -/
structure ColInitAcc where
  headers : List String
  entityAttrs : List String
  cellFormatters : List (String × (Value → Value))
  searchableColumns : List ComboItem
  missingColumns : List String
  headerIdx : Nat

/-- One iteration of the column loop of `_init_entity_columns`: a
non-virtual column absent from the database table is recorded as missing;
otherwise the header and attribute name are appended (a multiple-select
column contributes its `model_attribute_name`), the registered formatter
is stored under the attribute name, a searchable column is keyed into
`_searchable_columns` by header, and `header_idx` advances. -/
def processColumn (dbCols : List String) (acc : ColInitAcc) (c : EntityColumn) : ColInitAcc :=
  if ¬ dbCols.contains c.name ∧ ¬ c.isVirtual then
    { acc with missingColumns := acc.missingColumns ++ [c.name] }
  else
    let col_name := if c.isMultipleSelect then c.model_attribute_name else c.name
    { headers := acc.headers ++ [c.headerText]
      entityAttrs := acc.entityAttrs ++ [col_name]
      cellFormatters :=
        match c.formatter with
        | some f => dictInsert acc.cellFormatters col_name f
        | none => acc.cellFormatters
      searchableColumns :=
        if c.searchable then
          odInsert acc.searchableColumns ⟨c.headerText, c.name, acc.headerIdx⟩
        else acc.searchableColumns
      missingColumns := acc.missingColumns
      headerIdx := acc.headerIdx + 1 }

/-- `EntityBrowser._init_entity_columns`: run the column loop over the
configured columns, store the collected metadata on the dialog, and show a
modal warning listing the missing columns when there are any. -/
def init_entity_columns (env : LoadEnv) (s : BrowserState) : BrowserState :=
  let acc := env.entityColumns.foldl (processColumn env.dbColumns)
    ⟨s.headers, s.entityAttrs, s.cellFormatters, s.searchableColumns, [], 0⟩
  let s1 := { s with
    headers := acc.headers
    entityAttrs := acc.entityAttrs
    cellFormatters := acc.cellFormatters
    searchableColumns := acc.searchableColumns }
  if acc.missingColumns.length > 0 then
    { s1 with msgBoxes := s1.msgBoxes ++ [⟨MsgBoxKind.warningBox, "Entity Browser"⟩] }
  else s1

/-- `EntityBrowser.recomputeRecordCount`: query the record count and set
the window title to `"{title} - {n} row(s)"`.  A failing `count()` raises,
carrying the state reached so far. -/
def recomputeRecordCount (countResult : Except String Nat) (s : BrowserState) :
    Except (String × BrowserState) (Nat × BrowserState) :=
  match countResult with
  | .error e => .error (e, s)
  | .ok n =>
      .ok (n, { s with windowTitle :=
        (title s ++ " - " ++ toString n ++ " " ++ (if n = 1 then "row" else "rows")) })

/-- Apply the display formatter registered for `attr`, if any
(`if attr in self._cell_formatters: attr_val = formatter.format_column_value(attr_val)`). -/
def formatValue (fmts : List (String × (Value → Value))) (attr : String) (v : Value) : Value :=
  match dictFind fmts attr with
  | some f => f v
  | none => v

/-- The inner attribute loop of `_initializeData` for one record: read each
entity attribute with `getattr`, apply the formatter, collect the row; the
first failing read raises out of the loop. -/
def buildRow (fmts : List (String × (Value → Value)))
    (rec : String → Except String Value) : List String → Except String (List Value)
  | [] => .ok []
  | attr :: rest =>
    match rec attr with
    | .error e => .error e
    | .ok v =>
      match buildRow fmts rec rest with
      | .error e => .error e
      | .ok vs => .ok (formatValue fmts attr v :: vs)

/-- The record loop of `_initializeData`: build a display row per fetched
record; the first record whose attribute read raises aborts the loop
(the exception is caught by the surrounding `try` which shows a critical
box and returns). -/
def loadRows (fmts : List (String × (Value → Value))) (attrs : List String) :
    List (String → Except String Value) → Except String (List (List Value))
  | [] => .ok []
  | rec :: rest =>
    match buildRow fmts rec attrs with
    | .error e => .error e
    | .ok row =>
      match loadRows fmts attrs rest with
      | .error e => .error e
      | .ok rows => .ok (row :: rows)

/-- `EntityBrowser._select_record`: when a pending selection id is set,
select the row whose column-0 display data matches it, if one exists. -/
def select_record (idOpt : Option Value) (s : BrowserState) : BrowserState :=
  match idOpt with
  | none => s
  | some id =>
    if (s.tableModel.getD []).any (fun row => (row.get? 0).getD Value.nullV = id) then
      { s with viewSelection := some id }
    else s

/-- `EntityBrowser._initializeData`: show a critical box and return if the
database model is missing; otherwise initialise the columns, recompute the
record count (an exception propagates), fetch all records (an exception
propagates), build the display rows (a failing attribute read shows a
critical "Loading Records" box and returns early), then install the table
model, fill the filter combo with the searchable columns other than `id`,
set the proxy filter column from the first combo entry, enable sorting on
column 1, hide column 0, and select the pending record if requested. -/
def initializeData (env : LoadEnv) (s : BrowserState) :
    Except (String × BrowserState) BrowserState :=
  if ¬ s.dbmodelSome then
    .ok { s with msgBoxes := s.msgBoxes ++ [⟨MsgBoxKind.criticalBox, "Entity Browser"⟩] }
  else
    let s1 := init_entity_columns env s
    match recomputeRecordCount env.countResult s1 with
    | .error es => .error es
    | .ok (_, s2) =>
      match env.queryResult with
      | .error e => .error (e, s2)
      | .ok records =>
        match loadRows s2.cellFormatters s2.entityAttrs records with
        | .error _ =>
            .ok { s2 with msgBoxes := s2.msgBoxes ++ [⟨MsgBoxKind.criticalBox, "Loading Records"⟩] }
        | .ok rows =>
          let s3 := { s2 with
            tableModel := some rows
            filterComboItems :=
              s2.filterComboItems ++ s2.searchableColumns.filter (fun (it : ComboItem) => it.colName ≠ "id") }
          let s4 := { s3 with
            proxyFilterColumn :=
              if s3.filterComboItems.length > 0 then
                (s3.filterComboItems.get? 0).map (fun (it : ComboItem) => it.headerIdx)
              else s3.proxyFilterColumn
            viewSortColumn := some 1
            hiddenColumns := s3.hiddenColumns ++ [0] }
          .ok (select_record s4.selectItem s4)

/-- `EntityBrowser.showEvent`: set the window title; if the data was
already initialised do nothing more; otherwise load the data when a
database model is present, swallowing any exception (`except ... : pass`),
and mark the data as initialised in every case. -/
def showEvent (env : LoadEnv) (s : BrowserState) : BrowserState :=
  let s0 := { s with windowTitle := title s }
  if s0.dataInitialized then s0
  else
    let s1 :=
      if s0.dbmodelSome then
        match initializeData env s0 with
        | .ok s' => s'
        | .error es => es.2
      else s0
    { s1 with dataInitialized := true }

/-- `EntityBrowser.hideEvent`: the body is `pass`; nothing changes. -/
def hideEvent (s : BrowserState) : BrowserState := s

/-- `EntityBrowser.addModelToView`: append one row at `rowCount()` and set
each cell from the model object's attribute values, with the registered
cell formatter applied.  A model object is a total attribute map (the
editor returns a well-formed model).  Calling this before `_initializeData`
has set a table model raises (`None.rowCount()`), modelled by `Except.error`. -/
def addModelToView (model_obj : String → Value) (s : BrowserState) :
    Except String BrowserState :=
  match s.tableModel with
  | none => .error "AttributeError: NoneType object has no attribute rowCount"
  | some rows =>
    let newRow := s.entityAttrs.map (fun attr => formatValue s.cellFormatters attr (model_obj attr))
    .ok { s with tableModel := some (rows ++ [newRow]) }

/-- `EntityBrowserWithEditor.onNewEntity`: run the editor dialog
(`editorResult = some m` models `exec_()` returning `Accepted` with
`model()` being `m`; `none` models a rejected dialog); on acceptance add
the model to the view and recompute the record count, whose `count()`
result is `countResult`.  Uncaught exceptions surface as `Except.error`. -/
def onNewEntity (editorResult : Option (String → Value)) (countResult : Except String Nat)
    (s : BrowserState) : Except String BrowserState :=
  match editorResult with
  | none => .ok s
  | some m =>
    match addModelToView m s with
    | .error e => .error e
    | .ok s1 =>
      match recomputeRecordCount countResult s1 with
      | .error es => .error es.1
      | .ok (_, s2) => .ok s2

/-- The notification text of `onRemoveEntity` for an empty selection. -/
def selectToDeleteMsg : String := "Please select a record in the table below to be deleted."

/-- The notification text of `_deleteRecord` after a successful delete. -/
def deleteSuccessMsg : String := "Record has been successfully deleted!"

/-- `EntityBrowserWithEditor._deleteRecord`: ask for confirmation
(`confirmYes` models the user answering `Yes`); on confirmation remove row
`rownumber` from the table model first, then look the record id up in the
database (given as the list of stored record ids) and, only if found,
delete it and push the success notification.  Returns the dialog state and
the database contents. -/
def deleteRecord (db : List Int) (confirmYes : Bool) (recid : Value) (rownumber : Nat)
    (s : BrowserState) : BrowserState × List Int :=
  if confirmYes then
    let s1 := { s with tableModel :=
      (s.tableModel).map (fun rows => rows.eraseIdx rownumber) }
    match db.find? (fun i => recid = Value.intV i) with
    | some i =>
        ({ s1 with notifBar := [(NotifKind.information, deleteSuccessMsg)] }, db.erase i)
    | none => (s1, db)
  else (s, db)

/-- `EntityBrowserWithEditor.onRemoveEntity`: clear the notifications, warn
when nothing is selected, otherwise read the record id from column 0 of the
first selected row and delete it via `_deleteRecord`. -/
def onRemoveEntity (s : BrowserState) (selRows : List Nat) (db : List Int)
    (confirmYes : Bool) : BrowserState × List Int :=
  let s1 := { s with notifBar := [] }
  match selRows with
  | [] => ({ s1 with notifBar := s1.notifBar ++ [(NotifKind.warning, selectToDeleteMsg)] }, db)
  | r :: _ =>
    deleteRecord db confirmYes (getCell (s1.tableModel.getD []) r 0) r s1

/-- `EntityBrowserWithEditor.onDoubleClickView`: read the record id from
column 0 of the double-clicked source row and load the editor dialog for
it; the returned pair is the `(recid, rownumber)` handed to
`_load_editor_dialog`, i.e. the editor is opened for that record. -/
def editorOnDoubleClickView (s : BrowserState) (rowNumber : Nat) : Option (Value × Nat) :=
  some (getCell (s.tableModel.getD []) rowNumber 0, rowNumber)

/-- A `TableContentGroup`'s capability checks (`canCreate`, `canUpdate`,
`canDelete`). -/
structure TableContentGroup where
  canCreate : Bool
  canUpdate : Bool
  canDelete : Bool
deriving DecidableEq, Repr

/-- Visibility of the three toolbar actions created by
`EntityBrowserWithEditor.__init__`. -/
structure EditorActions where
  newVisible : Bool
  editVisible : Bool
  removeVisible : Bool
deriving DecidableEq, Repr

/-- The toolbar part of `EntityBrowserWithEditor.__init__`: the Add, Edit
and Remove actions exist (initially visible) exactly when the state
contains the `MANAGE` flag; otherwise no toolbar is created. -/
def editorBrowserActions (state : Nat) : Option EditorActions :=
  if state &&& MANAGE ≠ 0 then some ⟨true, true, true⟩ else none

/-- The `tableContentGroup` argument of `ContentGroupEntityBrowser`: either
an actual `TableContentGroup` or any other Python object (failing the
`isinstance` check). -/
inductive ContentGroupArg where
  | group : TableContentGroup → ContentGroupArg
  | notAGroup : String → ContentGroupArg

/-- Observable steps of `ContentGroupEntityBrowser.__init__`, in execution
order: the base-class initialisation, the `TypeError` raise, the
permission gating block, and the `_setFormatters` call. -/
inductive CGEvent where
  | baseInitDone
  | typeErrorRaised
  | permissionsGated
  | formattersApplied
deriving DecidableEq, Repr

/-- The state a completed `ContentGroupEntityBrowser.__init__` leaves
behind: the (possibly permission-hidden) toolbar actions, the stored
content group, and whether `_setFormatters` ran. -/
structure CGState where
  actions : Option EditorActions
  group : TableContentGroup
  formattersConfigured : Bool
deriving DecidableEq, Repr

/-- The `TypeError` message of `ContentGroupEntityBrowser.__init__`. -/
def contentGroupTypeErrMsg : String := "Content group is not of type TableContentGroup"

/-- `ContentGroupEntityBrowser.__init__`: run the editor-browser
initialisation, raise `TypeError` if the argument is not a
`TableContentGroup`, then — when the state has the `MANAGE` flag — hide
each action whose capability check fails, and finally call
`_setFormatters`.  Returns the result (or the raised error) together with
the trace of executed steps. -/
def contentGroupInit (arg : ContentGroupArg) (state : Nat) :
    Except String CGState × List CGEvent :=
  let actions0 := editorBrowserActions state
  match arg with
  | .notAGroup _ =>
      (.error contentGroupTypeErrMsg, [CGEvent.baseInitDone, CGEvent.typeErrorRaised])
  | .group g =>
    let actions1 :=
      if state &&& MANAGE ≠ 0 then
        actions0.map (fun a =>
          { a with
            newVisible := if ¬ g.canCreate then false else a.newVisible
            editVisible := if ¬ g.canUpdate then false else a.editVisible
            removeVisible := if ¬ g.canDelete then false else a.removeVisible })
      else actions0
    let trace :=
      [CGEvent.baseInitDone] ++
        (if state &&& MANAGE ≠ 0 then [CGEvent.permissionsGated] else []) ++
        [CGEvent.formattersApplied]
    (.ok ⟨actions1, g, true⟩, trace)

/-- `ContentGroupEntityBrowser.onDoubleClickView`: delegate to the editor
browser's double-click handler only when `canUpdate()` holds; otherwise no
editor is opened. -/
def cgOnDoubleClickView (g : TableContentGroup) (s : BrowserState) (rowNumber : Nat) :
    Option (Value × Nat) :=
  if g.canUpdate then editorOnDoubleClickView s rowNumber else none

/-- A Python object passed positionally into `EntityBrowser.__init__`:
a parent widget, a mapped model class, or `None`. -/
inductive PyObj where
  | widget : String → PyObj
  | modelClass : String → PyObj
  | pyNone : PyObj
deriving DecidableEq, Repr

/-- What `EntityBrowser.__init__(self, entity, parent=None, state=MANAGE)`
binds from its positional arguments: `self._entity = entity` and
`QDialog.__init__(self, parent)`. -/
structure EBInitArgs where
  entity : PyObj
  parent : PyObj
  state : Nat
deriving DecidableEq, Repr

/-- The argument binding performed by `EntityBrowser.__init__`. -/
def entityBrowserInitArgs (entity parent : PyObj) (state : Nat) : EBInitArgs :=
  ⟨entity, parent, state⟩

/-- The `table` argument of `ForeignKeyBrowser`: a table-name string or a
model class. -/
inductive TableArg where
  | tableName : String → TableArg
  | modelCls : String → TableArg

/-- `ForeignKeyBrowser.__init__(self, parent=None, table=None, state=MANAGE)`:
resolve the model (a string is looked up through
`DeclareMapping.instance().tableMapping`, modelled by `tableMapping`; a
class is used as is), remember the data source name, and call
`EntityBrowser.__init__(self, parent, model, state)` — passing `parent`
and `model` positionally in that order.  Returns the bound constructor
arguments and `self._data_source_name`. -/
def foreignKeyBrowserInit (tableMapping : String → PyObj) (parent : PyObj)
    (table : TableArg) (state : Nat) : EBInitArgs × String :=
  match table with
  | .tableName t => (entityBrowserInitArgs parent (tableMapping t) state, t)
  | .modelCls n => (entityBrowserInitArgs parent (PyObj.modelClass n) state, n)

/-! Concrete fixtures used to instantiate the verified properties. -/

/-- A freshly constructed browser for a `Person` entity, as
`EntityBrowser.__init__` leaves it: nothing loaded yet. -/
def freshState : BrowserState :=
  { entityShortName := "Person"
    mode := MANAGE
    dbmodelSome := true
    dataInitialized := false
    headers := []
    entityAttrs := []
    cellFormatters := []
    searchableColumns := []
    filterComboItems := []
    tableModel := none
    proxyFilterColumn := none
    hiddenColumns := []
    viewSortColumn := none
    viewSelection := none
    selectItem := none
    notifBar := []
    msgBoxes := []
    emitted := []
    windowTitle := "" }

/-- A browser in `SELECT` mode whose table model holds two records,
`(7, Ann)` and `(9, Bob)`. -/
def shownState : BrowserState :=
  { freshState with
    mode := SELECT
    dataInitialized := true
    headers := ["Id", "Name"]
    entityAttrs := ["id", "name"]
    tableModel := some [[Value.intV 7, Value.strV "Ann"], [Value.intV 9, Value.strV "Bob"]] }

/-- The `id` and `name` columns of the `Person` entity, both searchable,
both present in the database table. -/
def personColumns : List EntityColumn :=
  [⟨"id", "Id", true, false, false, "id", none⟩,
   ⟨"name", "Name", true, false, false, "name", none⟩]

/-- A load environment whose `count()` raises: the table columns are all
present, but the record count query fails. -/
def countFailEnv : LoadEnv :=
  { dbColumns := ["id", "name"]
    entityColumns := personColumns
    countResult := .error "database connection failed"
    queryResult := .ok [] }

/-- A record `(7, Ann)` whose attribute reads all succeed. -/
def annRecord : String → Except String Value := fun attr =>
  if attr = "id" then .ok (Value.intV 7)
  else if attr = "name" then .ok (Value.strV "Ann")
  else .error "AttributeError"

/-- A record `(9, Bob)` whose attribute reads all succeed. -/
def bobRecord : String → Except String Value := fun attr =>
  if attr = "id" then .ok (Value.intV 9)
  else if attr = "name" then .ok (Value.strV "Bob")
  else .error "AttributeError"

/-- A load environment that succeeds with the single record `(7, Ann)`. -/
def oneRecordEnv : LoadEnv :=
  { dbColumns := ["id", "name"]
    entityColumns := personColumns
    countResult := .ok 1
    queryResult := .ok [annRecord] }

/-- A load environment that succeeds with the records `(7, Ann)` and
`(9, Bob)`. -/
def twoRecordEnv : LoadEnv :=
  { dbColumns := ["id", "name"]
    entityColumns := personColumns
    countResult := .ok 2
    queryResult := .ok [annRecord, bobRecord] }

/-! Claim C1. -/

/-- C1: when the dialog is accepted in `SELECT` mode with at least one row
selected, `recordSelected` is emitted exactly once with the column-0
record id of the first selected row (and an information notification is
pushed); with no selection only a warning notification appears and nothing
is emitted; in any non-`SELECT` mode nothing is ever emitted. -/
theorem C1_onAccept_select_emits (s : BrowserState) (selRows : List Nat) :
    (selRows ≠ [] → s.mode = SELECT →
      (onAccept s selRows).emitted =
        s.emitted ++ [getCell (s.tableModel.getD []) (selRows.headD 0) 0] ∧
      (onAccept s selRows).notifBar = [(NotifKind.information, recordSelectedMsg)]) ∧
    (selRows = [] →
      (onAccept s selRows).emitted = s.emitted ∧
      (onAccept s selRows).notifBar = [(NotifKind.warning, pleaseSelectMsg)]) ∧
    (s.mode ≠ SELECT → (onAccept s selRows).emitted = s.emitted) := by
  refine ⟨?_, ?_, ?_⟩
  · intro hne hmode
    match selRows with
    | r :: rest =>
      simp [onAccept, selected_record_ids, hmode]
  · intro hempty
    subst hempty
    simp [onAccept, selected_record_ids]
  · intro hmode
    match selRows with
    | [] => simp [onAccept, selected_record_ids]
    | r :: rest => simp [onAccept, selected_record_ids, hmode]

/-- Witness for C1 at a concrete browser: accepting `shownState` with row 1
selected emits exactly the id `9`. -/
theorem C1_onAccept_select_emits_witness :
    (onAccept shownState [1]).emitted = [Value.intV 9] ∧
    (onAccept shownState [1]).notifBar = [(NotifKind.information, recordSelectedMsg)] := by
  have h := (C1_onAccept_select_emits shownState [1]).1 (by decide) rfl
  refine ⟨?_, h.2⟩
  rw [h.1]
  rfl

/-! Claim C2: infrastructure lemmas about the loading pipeline. -/

/-- The column loop accumulates exactly the names of the configured
non-virtual columns absent from the database table as missing. -/
theorem foldl_missingColumns (db : List String) (cols : List EntityColumn) :
    ∀ acc : ColInitAcc,
      (cols.foldl (processColumn db) acc).missingColumns =
        acc.missingColumns ++
          (cols.filter (fun c => ¬ db.contains c.name ∧ ¬ c.isVirtual)).map
            (fun c => c.name) := by
  induction cols with
  | nil => intro acc; simp
  | cons c rest ih =>
    intro acc
    rw [List.foldl_cons, List.filter_cons]
    by_cases hmiss : ¬ db.contains c.name ∧ ¬ c.isVirtual
    · have hpc : processColumn db acc c =
          { acc with missingColumns := acc.missingColumns ++ [c.name] } := by
        unfold processColumn
        rw [if_pos hmiss]
      have hcp : (fun c => decide (¬ db.contains c.name = true ∧ ¬ c.isVirtual = true)) c = true := by
        simp only [decide_eq_true_eq]
        exact hmiss
      rw [hpc, ih, if_pos hcp]
      simp
    · have hpc : (processColumn db acc c).missingColumns = acc.missingColumns := by
        unfold processColumn
        rw [if_neg hmiss]
      have hcp : ¬ ((fun c => decide (¬ db.contains c.name = true ∧ ¬ c.isVirtual = true)) c = true) := by
        simp only [decide_eq_true_eq]
        exact hmiss
      rw [ih, hpc, if_neg hcp]

/-- The column loop never touches the fields of the browser state other
than the column metadata; in particular `processColumn` keeps the
missing-column-independent projections listed here. -/
theorem init_entity_columns_proj (env : LoadEnv) (s : BrowserState) :
    (init_entity_columns env s).tableModel = s.tableModel ∧
    (init_entity_columns env s).notifBar = s.notifBar ∧
    (init_entity_columns env s).dbmodelSome = s.dbmodelSome ∧
    (init_entity_columns env s).dataInitialized = s.dataInitialized ∧
    (init_entity_columns env s).emitted = s.emitted ∧
    (init_entity_columns env s).filterComboItems = s.filterComboItems ∧
    (init_entity_columns env s).hiddenColumns = s.hiddenColumns ∧
    (init_entity_columns env s).selectItem = s.selectItem ∧
    (init_entity_columns env s).mode = s.mode ∧
    (init_entity_columns env s).windowTitle = s.windowTitle ∧
    (init_entity_columns env s).entityShortName = s.entityShortName := by
  simp only [init_entity_columns]
  refine ⟨?_, ?_, ?_, ?_, ?_, ?_, ?_, ?_, ?_, ?_, ?_⟩ <;> (split <;> rfl)

/-- With no configured column missing from the database table,
`_init_entity_columns` shows no message box. -/
theorem init_entity_columns_msgBoxes_no_missing (env : LoadEnv) (s : BrowserState)
    (h : ∀ c ∈ env.entityColumns, env.dbColumns.contains c.name = true ∨ c.isVirtual = true) :
    (init_entity_columns env s).msgBoxes = s.msgBoxes := by
  have hfilter :
      env.entityColumns.filter (fun c => ¬ env.dbColumns.contains c.name ∧ ¬ c.isVirtual) = [] := by
    rw [List.filter_eq_nil_iff]
    intro c hc
    simp only [decide_eq_true_eq, not_and, not_not]
    intro hncont
    rcases h c hc with hcont | hvirt
    · exact absurd hcont hncont
    · exact hvirt
  have hmc := foldl_missingColumns env.dbColumns env.entityColumns
    ⟨s.headers, s.entityAttrs, s.cellFormatters, s.searchableColumns, [], 0⟩
  rw [hfilter] at hmc
  simp only [List.map_nil, List.append_nil] at hmc
  simp only [init_entity_columns, hmc]
  simp

/-- With a configured non-virtual column missing from the database table,
`_init_entity_columns` shows the missing-columns warning box. -/
theorem init_entity_columns_msgBoxes_missing (env : LoadEnv) (s : BrowserState)
    (c : EntityColumn) (hc : c ∈ env.entityColumns)
    (hncont : env.dbColumns.contains c.name = false) (hnv : c.isVirtual = false) :
    (⟨MsgBoxKind.warningBox, "Entity Browser"⟩ : MsgBox) ∈ (init_entity_columns env s).msgBoxes := by
  have hmem : c ∈ env.entityColumns.filter
      (fun c => ¬ env.dbColumns.contains c.name ∧ ¬ c.isVirtual) := by
    rw [List.mem_filter]
    refine ⟨hc, ?_⟩
    simp only [decide_eq_true_eq]
    exact ⟨by rw [hncont]; simp, by rw [hnv]; simp⟩
  have hmc := foldl_missingColumns env.dbColumns env.entityColumns
    ⟨s.headers, s.entityAttrs, s.cellFormatters, s.searchableColumns, [], 0⟩
  have hlen : 0 < (List.foldl (processColumn env.dbColumns)
      ⟨s.headers, s.entityAttrs, s.cellFormatters, s.searchableColumns, [], 0⟩
      env.entityColumns).missingColumns.length := by
    rw [hmc]
    simp only [List.nil_append, List.length_map]
    exact List.length_pos.mpr (List.ne_nil_of_mem hmem)
  simp only [init_entity_columns]
  rw [if_pos hlen]
  simp

/-- `_select_record` only changes the view selection. -/
theorem select_record_proj (o : Option Value) (s : BrowserState) :
    (select_record o s).msgBoxes = s.msgBoxes ∧
    (select_record o s).notifBar = s.notifBar ∧
    (select_record o s).tableModel = s.tableModel ∧
    (select_record o s).filterComboItems = s.filterComboItems ∧
    (select_record o s).hiddenColumns = s.hiddenColumns ∧
    (select_record o s).entityAttrs = s.entityAttrs ∧
    (select_record o s).dataInitialized = s.dataInitialized := by
  cases o with
  | none => simp [select_record]
  | some id =>
    by_cases h : ((s.tableModel.getD []).any
        (fun row => (row.get? 0).getD Value.nullV = id)) = true
    · simp only [select_record]
      rw [if_pos h]
      simp
    · simp only [select_record]
      rw [if_neg h]
      simp

/-- Branch characterization: a failing `count()` query propagates out of
`_initializeData` as an exception carrying the state mutated by
`_init_entity_columns`. -/
theorem initializeData_count_error (env : LoadEnv) (s : BrowserState) (e : String)
    (hdb : s.dbmodelSome = true) (hc : env.countResult = Except.error e) :
    initializeData env s = Except.error (e, init_entity_columns env s) := by
  unfold initializeData
  rw [if_neg (by simp [hdb])]
  simp only [recomputeRecordCount, hc]

/-- Branch characterization: a failing `filter().all()` query propagates
out of `_initializeData` as an exception carrying the state after the
record count was computed. -/
theorem initializeData_query_error (env : LoadEnv) (s : BrowserState) (n : Nat) (e : String)
    (hdb : s.dbmodelSome = true) (hc : env.countResult = Except.ok n)
    (hq : env.queryResult = Except.error e) :
    initializeData env s = Except.error
      (e, { init_entity_columns env s with windowTitle :=
        (title (init_entity_columns env s) ++ " - " ++ toString n ++ " " ++
          (if n = 1 then "row" else "rows")) }) := by
  unfold initializeData
  rw [if_neg (by simp [hdb])]
  simp only [recomputeRecordCount, hc, hq]

/-- Branch characterization: a failing attribute read during the record
loop is caught, a critical "Loading Records" box is shown, and
`_initializeData` returns early without installing a table model. -/
theorem initializeData_load_error (env : LoadEnv) (s : BrowserState) (n : Nat)
    (records : List (String → Except String Value)) (e : String)
    (hdb : s.dbmodelSome = true) (hc : env.countResult = Except.ok n)
    (hq : env.queryResult = Except.ok records)
    (hl : loadRows (init_entity_columns env s).cellFormatters
            (init_entity_columns env s).entityAttrs records = Except.error e) :
    initializeData env s = Except.ok
      { init_entity_columns env s with
        windowTitle :=
          (title (init_entity_columns env s) ++ " - " ++ toString n ++ " " ++
            (if n = 1 then "row" else "rows"))
        msgBoxes :=
          (init_entity_columns env s).msgBoxes ++ [⟨MsgBoxKind.criticalBox, "Loading Records"⟩] } := by
  unfold initializeData
  rw [if_neg (by simp [hdb])]
  simp only [recomputeRecordCount, hc, hq, hl]

/-- Branch characterization: with the count, the query and every attribute
read succeeding, `_initializeData` completes, installing the loaded rows
as the table model, filling the filter combo from the searchable columns
other than `id`, and hiding view column 0. -/
theorem initializeData_success (env : LoadEnv) (s : BrowserState) (n : Nat)
    (records : List (String → Except String Value)) (rows : List (List Value))
    (hdb : s.dbmodelSome = true)
    (hc : env.countResult = Except.ok n)
    (hq : env.queryResult = Except.ok records)
    (hl : loadRows (init_entity_columns env s).cellFormatters
            (init_entity_columns env s).entityAttrs records = Except.ok rows) :
    ∃ s', initializeData env s = Except.ok s' ∧
      s'.tableModel = some rows ∧
      s'.filterComboItems = s.filterComboItems ++
        (init_entity_columns env s).searchableColumns.filter
          (fun (it : ComboItem) => it.colName ≠ "id") ∧
      s'.hiddenColumns = s.hiddenColumns ++ [0] ∧
      s'.entityAttrs = (init_entity_columns env s).entityAttrs ∧
      s'.notifBar = s.notifBar ∧
      s'.msgBoxes = (init_entity_columns env s).msgBoxes := by
  unfold initializeData
  rw [if_neg (by simp [hdb])]
  simp only [recomputeRecordCount, hc, hq, hl]
  refine ⟨_, rfl, ?_, ?_, ?_, ?_, ?_, ?_⟩
  · rw [(select_record_proj _ _).2.2.1]
  · rw [(select_record_proj _ _).2.2.2.1]
    simp [(init_entity_columns_proj env s).2.2.2.2.2.1]
  · rw [(select_record_proj _ _).2.2.2.2.1]
    simp [(init_entity_columns_proj env s).2.2.2.2.2.2.1]
  · rw [(select_record_proj _ _).2.2.2.2.2.1]
  · rw [(select_record_proj _ _).2.1]
    simp [(init_entity_columns_proj env s).2.1]
  · rw [(select_record_proj _ _).1]

/-- The `ghost` column: configured and searchable but absent from the
database table. -/
def ghostColumn : EntityColumn :=
  ⟨"ghost", "Ghost", true, false, false, "ghost", none⟩

/-- A load environment with a configured searchable column (`ghost`)
missing from the database table; count and query succeed with no records. -/
def ghostEnv : LoadEnv :=
  { dbColumns := ["id", "name"]
    entityColumns := personColumns ++ [ghostColumn]
    countResult := .ok 0
    queryResult := .ok [] }

/-- C2 counterexample: on a fresh dialog whose `count()` query raises, the
shown dialog ends up with no message box, no notification and no table
model — the query failure was caught by `showEvent`'s bare
`except: pass` and silently discarded, contradicting the claim that every
record-loading error is surfaced to the user. -/
theorem C2_counterexample :
    countFailEnv.countResult = Except.error "database connection failed" ∧
    (showEvent countFailEnv freshState).msgBoxes = [] ∧
    (showEvent countFailEnv freshState).notifBar = [] ∧
    (showEvent countFailEnv freshState).tableModel = none ∧
    (showEvent countFailEnv freshState).dataInitialized = true := by
  refine ⟨rfl, ?_, ?_, ?_, ?_⟩ <;> rfl

/-- C2 (amended): missing-column errors and record-attribute read errors
are surfaced as modal warning/critical dialogs inside `_initializeData`;
but an exception raised by the record-count or record-fetch query
propagates to `showEvent`, which catches and silently discards it — the
user sees no dialog and no notification, although no error escapes the UI
boundary. -/
theorem C2_error_surfacing (env : LoadEnv) (s : BrowserState) (c : EntityColumn)
    (e : String) (n : Nat) (records : List (String → Except String Value))
    (hdb : s.dbmodelSome = true) :
    (c ∈ env.entityColumns → env.dbColumns.contains c.name = false → c.isVirtual = false →
      (∀ s', initializeData env s = Except.ok s' →
        (⟨MsgBoxKind.warningBox, "Entity Browser"⟩ : MsgBox) ∈ s'.msgBoxes) ∧
      (∀ p : String × BrowserState, initializeData env s = Except.error p →
        (⟨MsgBoxKind.warningBox, "Entity Browser"⟩ : MsgBox) ∈ p.2.msgBoxes)) ∧
    (env.countResult = Except.ok n → env.queryResult = Except.ok records →
      loadRows (init_entity_columns env s).cellFormatters
        (init_entity_columns env s).entityAttrs records = Except.error e →
      ∀ s', initializeData env s = Except.ok s' →
        (⟨MsgBoxKind.criticalBox, "Loading Records"⟩ : MsgBox) ∈ s'.msgBoxes) ∧
    ((∀ c2 ∈ env.entityColumns, env.dbColumns.contains c2.name = true ∨ c2.isVirtual = true) →
      s.dataInitialized = false →
      (env.countResult = Except.error e ∨
        (env.countResult = Except.ok n ∧ env.queryResult = Except.error e)) →
      (showEvent env s).msgBoxes = s.msgBoxes ∧
      (showEvent env s).notifBar = s.notifBar ∧
      (showEvent env s).tableModel = s.tableModel ∧
      (showEvent env s).dataInitialized = true) := by
  refine ⟨?_, ?_, ?_⟩
  · intro hcmem hncont hnv
    have hwarn := init_entity_columns_msgBoxes_missing env s c hcmem hncont hnv
    constructor
    · intro s' hok
      rcases hcr : env.countResult with e1 | n1
      · rw [initializeData_count_error env s e1 hdb hcr] at hok
        exact absurd hok (by simp)
      · rcases hqr : env.queryResult with e2 | recs
        · rw [initializeData_query_error env s n1 e2 hdb hcr hqr] at hok
          exact absurd hok (by simp)
        · rcases hlr : loadRows (init_entity_columns env s).cellFormatters
              (init_entity_columns env s).entityAttrs recs with e3 | rows2
          · rw [initializeData_load_error env s n1 recs e3 hdb hcr hqr hlr] at hok
            have h := Except.ok.inj hok
            subst h
            exact List.mem_append_left _ hwarn
          · obtain ⟨s'', hok2, hproj⟩ :=
              initializeData_success env s n1 recs rows2 hdb hcr hqr hlr
            rw [hok2] at hok
            have h := Except.ok.inj hok
            subst h
            rw [hproj.2.2.2.2.2]
            exact hwarn
    · intro p herr
      rcases hcr : env.countResult with e1 | n1
      · rw [initializeData_count_error env s e1 hdb hcr] at herr
        have h := Except.error.inj herr
        subst h
        exact hwarn
      · rcases hqr : env.queryResult with e2 | recs
        · rw [initializeData_query_error env s n1 e2 hdb hcr hqr] at herr
          have h := Except.error.inj herr
          subst h
          exact hwarn
        · rcases hlr : loadRows (init_entity_columns env s).cellFormatters
              (init_entity_columns env s).entityAttrs recs with e3 | rows2
          · rw [initializeData_load_error env s n1 recs e3 hdb hcr hqr hlr] at herr
            exact absurd herr (by simp)
          · obtain ⟨s'', hok2, _⟩ :=
              initializeData_success env s n1 recs rows2 hdb hcr hqr hlr
            rw [hok2] at herr
            exact absurd herr (by simp)
  · intro hc hq hl s' hok
    rw [initializeData_load_error env s n records e hdb hc hq hl] at hok
    have h := Except.ok.inj hok
    subst h
    exact List.mem_append_right _ (by simp)
  · intro hnomiss hdi hfail
    have hnm0 := init_entity_columns_msgBoxes_no_missing env
      { s with windowTitle := title s } hnomiss
    have hproj0 := init_entity_columns_proj env { s with windowTitle := title s }
    simp only [showEvent]
    rw [if_neg (by simp [hdi])]
    rw [if_pos (show ({ s with windowTitle := title s } : BrowserState).dbmodelSome = true from hdb)]
    rcases hfail with hce | ⟨hcn, hqe⟩
    · rw [initializeData_count_error env { s with windowTitle := title s } e hdb hce]
      refine ⟨?_, ?_, ?_, rfl⟩
      · simpa using hnm0
      · simpa using hproj0.2.1
      · simpa using hproj0.1
    · rw [initializeData_query_error env { s with windowTitle := title s } n e hdb hcn hqe]
      refine ⟨?_, ?_, ?_, rfl⟩
      · simpa using hnm0
      · simpa using hproj0.2.1
      · simpa using hproj0.1

/-- Witness for C2: on the concrete environment with the missing `ghost`
column, loading a fresh dialog surfaces the missing-columns warning box. -/
theorem C2_error_surfacing_witness :
    (match initializeData ghostEnv freshState with
      | Except.ok s' => (⟨MsgBoxKind.warningBox, "Entity Browser"⟩ : MsgBox) ∈ s'.msgBoxes
      | Except.error p => (⟨MsgBoxKind.warningBox, "Entity Browser"⟩ : MsgBox) ∈ p.2.msgBoxes) := by
  have hA := (C2_error_surfacing ghostEnv freshState ghostColumn "e" 0 [] rfl).1
    (by simp [ghostEnv, personColumns, ghostColumn]) rfl rfl
  rcases hres : initializeData ghostEnv freshState with p | s'
  · exact hA.2 p hres
  · exact hA.1 s' hres

/-! Claim C3. -/

/-- C3 counterexample: deleting with record id 7 selected while the
database holds only record 5, the user confirming: the database is left
unchanged (no record was found to delete), yet the selected row has been
removed from the table model — contradicting "removed if and only if the
database record was found and deleted". -/
theorem C3_counterexample :
    (onRemoveEntity shownState [0] [5] true).2 = [5] ∧
    (onRemoveEntity shownState [0] [5] true).1.tableModel ≠ shownState.tableModel ∧
    (onRemoveEntity shownState [0] [5] true).1.tableModel =
      some [[Value.intV 9, Value.strV "Bob"]] := by
  refine ⟨rfl, ?_, rfl⟩
  decide

/-- C3 (amended): once the user confirms, the selected row is removed from
the table model unconditionally; the database record is deleted — and the
success notification shown — exactly when a record with the selected id
exists; declining the confirmation changes nothing. -/
theorem C3_delete_behavior (db : List Int) (recid : Value) (rn : Nat) (s : BrowserState) :
    ((deleteRecord db true recid rn s).1.tableModel
        = s.tableModel.map (fun rows => rows.eraseIdx rn)) ∧
    (∀ i, db.find? (fun j => recid = Value.intV j) = some i →
        (deleteRecord db true recid rn s).2 = db.erase i ∧
        (deleteRecord db true recid rn s).1.notifBar =
          [(NotifKind.information, deleteSuccessMsg)]) ∧
    (db.find? (fun j => recid = Value.intV j) = none →
        (deleteRecord db true recid rn s).2 = db ∧
        (deleteRecord db true recid rn s).1.notifBar = s.notifBar) ∧
    deleteRecord db false recid rn s = (s, db) := by
  refine ⟨?_, ?_, ?_, ?_⟩
  · rcases hf : db.find? (fun j => recid = Value.intV j) with _ | i <;>
      simp [deleteRecord, hf]
  · intro i hf
    simp [deleteRecord, hf]
  · intro hf
    simp [deleteRecord, hf]
  · simp [deleteRecord]

/-- Witness for C3: confirming deletion of record 7 removes its row,
deletes it from the database and shows the success notification. -/
theorem C3_delete_behavior_witness :
    (deleteRecord [7, 9] true (Value.intV 7) 0 shownState).2 = [9] ∧
    (deleteRecord [7, 9] true (Value.intV 7) 0 shownState).1.notifBar =
      [(NotifKind.information, deleteSuccessMsg)] ∧
    (deleteRecord [7, 9] true (Value.intV 7) 0 shownState).1.tableModel =
      some [[Value.intV 9, Value.strV "Bob"]] := by
  have h := C3_delete_behavior [7, 9] (Value.intV 7) 0 shownState
  have h2 := h.2.1 7 (by decide)
  refine ⟨?_, h2.2, ?_⟩
  · rw [h2.1]
    decide
  · rw [h.1]
    decide

/-! Claim C4. -/

/-- `showEvent` always leaves the data marked as initialised. -/
theorem showEvent_dataInitialized (env : LoadEnv) (s : BrowserState) :
    (showEvent env s).dataInitialized = true := by
  by_cases hdi : s.dataInitialized = true
  · simp [showEvent, hdi]
  · simp [showEvent, hdi]

/-- On an already-initialised dialog, `showEvent` only refreshes the
window title: no reload happens. -/
theorem showEvent_initialized (env : LoadEnv) (s : BrowserState)
    (hdi : s.dataInitialized = true) :
    showEvent env s = { s with windowTitle := title s } := by
  simp [showEvent, hdi]

/-- C4 counterexample: show the dialog against a one-record database, hide
it, then show it again against a two-record database: the table model
still holds only the first load's single row, although a fresh show
against the two-record database would load both rows — records are not
reloaded on a later show, and hiding discards nothing. -/
theorem C4_counterexample :
    (showEvent oneRecordEnv freshState).tableModel =
      some [[Value.intV 7, Value.strV "Ann"]] ∧
    (showEvent twoRecordEnv (hideEvent (showEvent oneRecordEnv freshState))).tableModel =
      some [[Value.intV 7, Value.strV "Ann"]] ∧
    (showEvent twoRecordEnv freshState).tableModel =
      some [[Value.intV 7, Value.strV "Ann"], [Value.intV 9, Value.strV "Bob"]] := by
  refine ⟨rfl, rfl, rfl⟩

/-- C4 (amended): the records are loaded only on the first show of the
dialog; `hideEvent` discards nothing, a show of an initialised dialog only
resets the window title, and a second show (with any environment) keeps
the table model of the first. -/
theorem C4_load_once (env env2 : LoadEnv) (s : BrowserState) :
    hideEvent s = s ∧
    (showEvent env s).dataInitialized = true ∧
    (s.dataInitialized = true → showEvent env s = { s with windowTitle := title s }) ∧
    (showEvent env2 (hideEvent (showEvent env s))).tableModel =
      (showEvent env s).tableModel := by
  refine ⟨rfl, showEvent_dataInitialized env s, showEvent_initialized env s, ?_⟩
  rw [show hideEvent (showEvent env s) = showEvent env s from rfl]
  rw [showEvent_initialized env2 (showEvent env s) (showEvent_dataInitialized env s)]

/-- Witness for C4 at a concrete initialised dialog: a further show only
resets the window title. -/
theorem C4_load_once_witness :
    showEvent oneRecordEnv shownState = { shownState with windowTitle := title shownState } := by
  exact (C4_load_once oneRecordEnv oneRecordEnv shownState).2.2.1 rfl

/-! Claim C5. -/

/-- A model object `(11, Eve)` returned by an accepted editor dialog. -/
def eveModel : String → Value := fun attr =>
  if attr = "id" then Value.intV 11
  else if attr = "name" then Value.strV "Eve"
  else Value.nullV

/-- C5: when the Add editor dialog is accepted, exactly one row with the
returned model's formatted attribute values is appended at the end of the
table model and the record count is recomputed into the window title; when
the editor is rejected, nothing changes. -/
theorem C5_add_record (s : BrowserState) (m : String → Value) (n : Nat)
    (rows : List (List Value)) (cr : Except String Nat)
    (hm : s.tableModel = some rows) :
    onNewEntity (some m) (Except.ok n) s = Except.ok
      { s with
        tableModel := some (rows ++ [s.entityAttrs.map
          (fun attr => formatValue s.cellFormatters attr (m attr))])
        windowTitle := (title s ++ " - " ++ toString n ++ " " ++
          (if n = 1 then "row" else "rows")) } ∧
    onNewEntity none cr s = Except.ok s := by
  constructor
  · simp only [onNewEntity, addModelToView, hm, recomputeRecordCount]
    rfl
  · rfl

/-- Witness for C5: accepting the editor with the `(11, Eve)` model appends
exactly that row; the title shows the recomputed count. -/
theorem C5_add_record_witness :
    onNewEntity (some eveModel) (Except.ok 3) shownState = Except.ok
      { shownState with
        tableModel := some [[Value.intV 7, Value.strV "Ann"], [Value.intV 9, Value.strV "Bob"],
          [Value.intV 11, Value.strV "Eve"]]
        windowTitle := "Person Records - 3 rows" } := by
  have h := (C5_add_record shownState eveModel 3
    [[Value.intV 7, Value.strV "Ann"], [Value.intV 9, Value.strV "Bob"]]
    (Except.ok 3) rfl).1
  rw [h]
  rfl

/-! Claim C6. -/

/-- C6: in the permission-gated browser, a visible Add/Edit/Remove action
implies the corresponding `canCreate`/`canUpdate`/`canDelete` capability
(a failing check always hides the action), and double-clicking a row opens
the editor exactly when `canUpdate` holds. -/
theorem C6_permission_gating (g : TableContentGroup) (state : Nat) (s : BrowserState)
    (rn : Nat) :
    (∀ cg a, (contentGroupInit (ContentGroupArg.group g) state).1 = Except.ok cg →
      cg.actions = some a →
      (a.newVisible = true → g.canCreate = true) ∧
      (a.editVisible = true → g.canUpdate = true) ∧
      (a.removeVisible = true → g.canDelete = true)) ∧
    (cgOnDoubleClickView g s rn).isSome = g.canUpdate := by
  constructor
  · intro cg a hok ha
    simp only [contentGroupInit] at hok
    have hcg := Except.ok.inj hok
    subst hcg
    by_cases hm : state &&& MANAGE = 0
    · rw [if_neg (by simp [hm])] at ha
      rw [editorBrowserActions, if_neg (by simp [hm])] at ha
      exact absurd ha (by simp)
    · rw [if_pos hm] at ha
      rw [editorBrowserActions, if_pos hm] at ha
      simp only [Option.map_some] at ha
      have haa := Option.some.inj ha
      subst haa
      refine ⟨?_, ?_, ?_⟩
      · cases hcc : g.canCreate <;> simp [hcc]
      · cases hcu : g.canUpdate <;> simp [hcu]
      · cases hcd : g.canDelete <;> simp [hcd]
  · cases hcu : g.canUpdate <;>
      simp [cgOnDoubleClickView, editorOnDoubleClickView, hcu]

/-- A content group allowing update and delete but not create. -/
def limitedGroup : TableContentGroup := ⟨false, true, true⟩

/-- Witness for C6 at a concrete group and state: with `canCreate` false,
initialisation yields a hidden Add action and a visible Edit action, and
the Edit visibility implies `canUpdate`; the double-click opens the editor
since `canUpdate` holds. -/
theorem C6_permission_gating_witness :
    limitedGroup.canUpdate = true ∧
    (cgOnDoubleClickView limitedGroup shownState 0).isSome = true := by
  have h := C6_permission_gating limitedGroup (VIEW ||| MANAGE) shownState 0
  have hv := (h.1 ⟨some ⟨false, true, true⟩, limitedGroup, true⟩ ⟨false, true, true⟩
    rfl rfl).2.1 rfl
  exact ⟨hv, by rw [h.2]; exact hv⟩

/-! Claim C9. -/

/-- The table-name-to-model mapping provided by the (external)
`DeclareMapping` registry, mapping the `person` table to its model class. -/
def personTableMapping : String → PyObj := fun t => PyObj.modelClass t

/-- C9 (the code evaluated at the failing input): constructing a
`ForeignKeyBrowser` with a parent widget and the `Person` model class
binds the entity slot of `EntityBrowser.__init__` to the parent widget and
the dialog-parent slot to the model class — `ForeignKeyBrowser.__init__`
passes `(parent, model, state)` positionally into the
`(entity, parent, state)` signature, so the browser's entity is NOT the
resolved model; the same holds for the table-name form. -/
theorem C9_argument_order_swapped :
    (foreignKeyBrowserInit personTableMapping (PyObj.widget "parentWin")
        (TableArg.modelCls "Person") MANAGE).1 =
      entityBrowserInitArgs (PyObj.widget "parentWin") (PyObj.modelClass "Person") MANAGE ∧
    (foreignKeyBrowserInit personTableMapping (PyObj.widget "parentWin")
        (TableArg.modelCls "Person") MANAGE).1.entity = PyObj.widget "parentWin" ∧
    (foreignKeyBrowserInit personTableMapping (PyObj.widget "parentWin")
        (TableArg.modelCls "Person") MANAGE).1.entity ≠ PyObj.modelClass "Person" ∧
    (foreignKeyBrowserInit personTableMapping (PyObj.widget "parentWin")
        (TableArg.tableName "person") MANAGE).1.entity = PyObj.widget "parentWin" := by
  refine ⟨rfl, rfl, ?_, rfl⟩
  decide

/-! Claim C10. -/

/-- C10: constructing a `ContentGroupEntityBrowser` with a
non-`TableContentGroup` argument always raises the `TypeError`, and the
executed-step trace shows the raise happens after the base initialisation
but before any permission gating or formatter setup. -/
theorem C10_typeerror_first (state : Nat) (obj : String) :
    (contentGroupInit (ContentGroupArg.notAGroup obj) state).1 =
      Except.error contentGroupTypeErrMsg ∧
    CGEvent.permissionsGated ∉ (contentGroupInit (ContentGroupArg.notAGroup obj) state).2 ∧
    CGEvent.formattersApplied ∉ (contentGroupInit (ContentGroupArg.notAGroup obj) state).2 ∧
    (contentGroupInit (ContentGroupArg.notAGroup obj) state).2 =
      [CGEvent.baseInitDone, CGEvent.typeErrorRaised] := by
  refine ⟨rfl, ?_, ?_, rfl⟩ <;> simp [contentGroupInit]

/-! Claims C7 and C8: infrastructure. -/

/-- A row built by the attribute loop has one cell per entity attribute. -/
theorem buildRow_length (fmts : List (String × (Value → Value)))
    (rec : String → Except String Value) :
    ∀ (attrs : List String) (row : List Value),
      buildRow fmts rec attrs = Except.ok row → row.length = attrs.length := by
  intro attrs
  induction attrs with
  | nil =>
    intro row h
    have hr := Except.ok.inj h
    subst hr
    rfl
  | cons a rest ih =>
    intro row h
    unfold buildRow at h
    rcases hr : rec a with e | v
    · rw [hr] at h
      exact absurd h (by simp)
    · rw [hr] at h
      rcases hb : buildRow fmts rec rest with e | vs
      · rw [hb] at h
        exact absurd h (by simp)
      · rw [hb] at h
        have hv := Except.ok.inj h
        subst hv
        simp [ih vs hb]

/-- Every row produced by the record loop has one cell per entity
attribute: the id column is present in each model row. -/
theorem loadRows_length (fmts : List (String × (Value → Value))) (attrs : List String) :
    ∀ (recs : List (String → Except String Value)) (rows : List (List Value)),
      loadRows fmts attrs recs = Except.ok rows →
      ∀ row ∈ rows, row.length = attrs.length := by
  intro recs
  induction recs with
  | nil =>
    intro rows h row hrow
    have hr := Except.ok.inj h
    subst hr
    simp at hrow
  | cons rec rest ih =>
    intro rows h row hrow
    unfold loadRows at h
    rcases hb : buildRow fmts rec attrs with e | r0
    · rw [hb] at h
      exact absurd h (by simp)
    · rw [hb] at h
      rcases hl : loadRows fmts attrs rest with e | rs
      · rw [hl] at h
        exact absurd h (by simp)
      · rw [hl] at h
        have hv := Except.ok.inj h
        subst hv
        rcases List.mem_cons.mp hrow with hr0 | hmem
        · subst hr0
          exact buildRow_length fmts rec attrs row hb
        · exact ih rs hl row hmem

/-- When the new key's header is absent, `OrderedDict` assignment appends. -/
theorem odInsert_append (l : List ComboItem) (it : ComboItem)
    (h : ∀ e ∈ l, e.header ≠ it.header) :
    odInsert l it = l ++ [it] := by
  unfold odInsert
  rw [if_neg (fun hex => by
    rw [List.any_eq_true] at hex
    obtain ⟨e, hel, hep⟩ := hex
    exact h e hel (by simpa using hep))]

/-- The searchable columns the column loop actually keeps: the configured
columns present in the database table (or virtual), with their header
index, i.e. their position among the displayed columns, restricted to
those with the searchable flag. -/
def keptSearchable (db : List String) : List EntityColumn → Nat → List ComboItem
  | [], _ => []
  | c :: rest, idx =>
    if ¬ db.contains c.name ∧ ¬ c.isVirtual then keptSearchable db rest idx
    else
      (if c.searchable then [⟨c.headerText, c.name, idx⟩] else []) ++
        keptSearchable db rest (idx + 1)

/-- The column loop builds `_searchable_columns` as exactly the kept
searchable columns, provided their headers (the dictionary keys) are
pairwise distinct and distinct from those already present. -/
theorem foldl_searchableColumns (db : List String) (cols : List EntityColumn) :
    ∀ acc : ColInitAcc,
      ((acc.searchableColumns.map (fun (it : ComboItem) => it.header)) ++
        ((keptSearchable db cols acc.headerIdx).map
          (fun (it : ComboItem) => it.header))).Nodup →
      (cols.foldl (processColumn db) acc).searchableColumns =
        acc.searchableColumns ++ keptSearchable db cols acc.headerIdx := by
  induction cols with
  | nil => intro acc _; simp [keptSearchable]
  | cons c rest ih =>
    intro acc hnd
    rw [List.foldl_cons]
    by_cases hmiss : ¬ db.contains c.name ∧ ¬ c.isVirtual
    · have hpc : processColumn db acc c =
          { acc with missingColumns := acc.missingColumns ++ [c.name] } := by
        unfold processColumn
        rw [if_pos hmiss]
      have hk : keptSearchable db (c :: rest) acc.headerIdx =
          keptSearchable db rest acc.headerIdx := by
        simp only [keptSearchable]
        rw [if_pos hmiss]
      rw [hpc, hk]
      rw [hk] at hnd
      exact ih _ hnd
    · have hsc : (processColumn db acc c).searchableColumns =
          (if c.searchable then
            odInsert acc.searchableColumns ⟨c.headerText, c.name, acc.headerIdx⟩
          else acc.searchableColumns) := by
        unfold processColumn
        rw [if_neg hmiss]
      have hhi : (processColumn db acc c).headerIdx = acc.headerIdx + 1 := by
        unfold processColumn
        rw [if_neg hmiss]
      by_cases hs : c.searchable = true
      · have hk : keptSearchable db (c :: rest) acc.headerIdx =
            ⟨c.headerText, c.name, acc.headerIdx⟩ ::
              keptSearchable db rest (acc.headerIdx + 1) := by
          simp only [keptSearchable]
          rw [if_neg hmiss, if_pos hs]
          rfl
        have hnotin : ∀ e ∈ acc.searchableColumns,
            e.header ≠ (⟨c.headerText, c.name, acc.headerIdx⟩ : ComboItem).header := by
          intro e hel
          rw [hk] at hnd
          rcases List.nodup_append.mp hnd with ⟨_, _, hdisj⟩
          have hmem : e.header ∈ acc.searchableColumns.map
              (fun (it : ComboItem) => it.header) := List.mem_map_of_mem _ hel
          have hnot := hdisj hmem
          simp only [List.map_cons, List.mem_cons] at hnot
          intro hcontra
          exact hnot (Or.inl hcontra)
        have hins := odInsert_append acc.searchableColumns
          ⟨c.headerText, c.name, acc.headerIdx⟩ hnotin
        have hnd2 : (((processColumn db acc c).searchableColumns.map
              (fun (it : ComboItem) => it.header)) ++
            ((keptSearchable db rest ((processColumn db acc c).headerIdx)).map
              (fun (it : ComboItem) => it.header))).Nodup := by
          rw [hsc, if_pos hs, hins, hhi]
          rw [hk] at hnd
          simp only [List.map_append, List.map_cons] at hnd ⊢
          rw [List.append_assoc]
          simpa using hnd
        rw [ih _ hnd2]
        rw [hsc, if_pos hs, hins, hhi, hk]
        simp [List.append_assoc]
      · have hk : keptSearchable db (c :: rest) acc.headerIdx =
            keptSearchable db rest (acc.headerIdx + 1) := by
          simp only [keptSearchable]
          rw [if_neg hmiss, if_neg hs]
          rfl
        have hnd2 : (((processColumn db acc c).searchableColumns.map
              (fun (it : ComboItem) => it.header)) ++
            ((keptSearchable db rest ((processColumn db acc c).headerIdx)).map
              (fun (it : ComboItem) => it.header))).Nodup := by
          rw [hsc, if_neg hs, hhi]
          rw [hk] at hnd
          exact hnd
        rw [ih _ hnd2]
        rw [hsc, if_neg hs, hhi, hk]

/-- `_init_entity_columns` stores exactly the loop's searchable columns. -/
theorem init_entity_columns_searchable (env : LoadEnv) (s : BrowserState) :
    (init_entity_columns env s).searchableColumns =
      (env.entityColumns.foldl (processColumn env.dbColumns)
        ⟨s.headers, s.entityAttrs, s.cellFormatters, s.searchableColumns, [], 0⟩).searchableColumns := by
  simp only [init_entity_columns]
  split <;> rfl

/-- The filter-column list described by the claim's words: exactly the
entity columns with the searchable flag, in configuration order, except
the `id` column — with no regard to their presence in the database
table. -/
def claimedFilterColumns (cols : List EntityColumn) : List String :=
  (cols.filter (fun c => c.searchable = true ∧ c.name ≠ "id")).map (fun c => c.name)

/-- C7 counterexample: with the searchable `ghost` column configured but
missing from the database table, the combo ends up holding only `name`,
while the claim's description demands `name` and `ghost` — a searchable
column absent from the database is silently dropped from the combo. -/
theorem C7_counterexample :
    (match initializeData ghostEnv freshState with
      | Except.ok s' => s'.filterComboItems.map (fun (it : ComboItem) => it.colName)
      | Except.error _ => []) = ["name"] ∧
    claimedFilterColumns ghostEnv.entityColumns = ["name", "ghost"] ∧
    (["name"] : List String) ≠ ["name", "ghost"] := by
  refine ⟨rfl, rfl, by decide⟩

/-- C7 (amended): after a successful data initialization of a fresh
dialog, the filter combo holds exactly the searchable entity columns that
exist in the database table (or are virtual), in configuration order,
except the `id` column, each entry carrying the column's name and its
header index among the displayed columns — provided the displayed
searchable headers are pairwise distinct (`_searchable_columns` is keyed
by header). -/
theorem C7_filter_columns (env : LoadEnv) (s : BrowserState) (n : Nat)
    (records : List (String → Except String Value)) (rows : List (List Value))
    (hdb : s.dbmodelSome = true)
    (hsc : s.searchableColumns = []) (hfc : s.filterComboItems = [])
    (hc : env.countResult = Except.ok n)
    (hq : env.queryResult = Except.ok records)
    (hl : loadRows (init_entity_columns env s).cellFormatters
            (init_entity_columns env s).entityAttrs records = Except.ok rows)
    (hnd : ((keptSearchable env.dbColumns env.entityColumns 0).map
        (fun (it : ComboItem) => it.header)).Nodup) :
    ∃ s', initializeData env s = Except.ok s' ∧
      s'.filterComboItems =
        (keptSearchable env.dbColumns env.entityColumns 0).filter
          (fun (it : ComboItem) => it.colName ≠ "id") := by
  obtain ⟨s', hok, _, hcombo, _⟩ := initializeData_success env s n records rows hdb hc hq hl
  refine ⟨s', hok, ?_⟩
  have hnd2 : ((((⟨s.headers, s.entityAttrs, s.cellFormatters, s.searchableColumns, [], 0⟩ :
        ColInitAcc).searchableColumns).map (fun (it : ComboItem) => it.header)) ++
      ((keptSearchable env.dbColumns env.entityColumns
          (⟨s.headers, s.entityAttrs, s.cellFormatters, s.searchableColumns, [], 0⟩ :
            ColInitAcc).headerIdx).map (fun (it : ComboItem) => it.header))).Nodup := by
    simpa [hsc] using hnd
  rw [hcombo, hfc, init_entity_columns_searchable,
    foldl_searchableColumns env.dbColumns env.entityColumns _ hnd2]
  simp [hsc]

/-- Witness for C7: on the two-record `Person` environment the combo gets
exactly one entry — the `name` column with header index 1 — while the
searchable `id` column is excluded. -/
theorem C7_filter_columns_witness :
    (match initializeData twoRecordEnv freshState with
      | Except.ok s' => s'.filterComboItems
      | Except.error _ => []) = [⟨"Name", "name", 1⟩] := by
  obtain ⟨s', hok, hcombo⟩ := C7_filter_columns twoRecordEnv freshState 2
    [annRecord, bobRecord]
    [[Value.intV 7, Value.strV "Ann"], [Value.intV 9, Value.strV "Bob"]]
    rfl rfl rfl rfl rfl rfl (by decide)
  rw [hok]
  show s'.filterComboItems = [⟨"Name", "name", 1⟩]
  rw [hcombo]
  decide

/-- C8: after a successful data initialization of a fresh dialog, view
column 0 is hidden, no filter-combo entry is the `id` column, the table
model holds the loaded rows at full width (one cell per entity attribute,
the id at position 0 included), and both the selection reader and the
double-click editor loader take the record id from column 0 of the
model. -/
theorem C8_id_column (env : LoadEnv) (s : BrowserState) (n : Nat)
    (records : List (String → Except String Value)) (rows : List (List Value))
    (r : Nat) (rs : List Nat)
    (hdb : s.dbmodelSome = true)
    (hfc : s.filterComboItems = []) (hhc : s.hiddenColumns = [])
    (hc : env.countResult = Except.ok n)
    (hq : env.queryResult = Except.ok records)
    (hl : loadRows (init_entity_columns env s).cellFormatters
            (init_entity_columns env s).entityAttrs records = Except.ok rows) :
    ∃ s', initializeData env s = Except.ok s' ∧
      s'.hiddenColumns = [0] ∧
      (∀ it ∈ s'.filterComboItems, it.colName ≠ "id") ∧
      s'.tableModel = some rows ∧
      (∀ row ∈ rows, row.length = (init_entity_columns env s).entityAttrs.length) ∧
      (selected_record_ids s' (r :: rs)).1 = (r :: rs).map (fun i => getCell rows i 0) ∧
      editorOnDoubleClickView s' r = some (getCell rows r 0, r) := by
  obtain ⟨s', hok, htm, hcombo, hhid, _, _, _⟩ :=
    initializeData_success env s n records rows hdb hc hq hl
  refine ⟨s', hok, ?_, ?_, htm, ?_, ?_, ?_⟩
  · rw [hhid, hhc]
    rfl
  · intro it hit
    rw [hcombo, hfc] at hit
    simp only [List.nil_append] at hit
    have := List.of_mem_filter hit
    simpa using this
  · exact loadRows_length _ _ records rows hl
  · simp [selected_record_ids, htm]
  · simp [editorOnDoubleClickView, htm]

/-- Witness for C8: on the concrete two-record environment the id column
is hidden yet readable: the selection reader returns `7` and `9` for rows
0 and 1, and the double-click loader opens the editor for record 7. -/
theorem C8_id_column_witness :
    (match initializeData twoRecordEnv freshState with
      | Except.ok s' =>
          s'.hiddenColumns = [0] ∧
          (selected_record_ids s' [0, 1]).1 = [Value.intV 7, Value.intV 9] ∧
          editorOnDoubleClickView s' 0 = some (Value.intV 7, 0)
      | Except.error _ => False) := by
  obtain ⟨s', hok, hhid, _, _, _, hsel, hdc⟩ := C8_id_column twoRecordEnv freshState 2
    [annRecord, bobRecord]
    [[Value.intV 7, Value.strV "Ann"], [Value.intV 9, Value.strV "Bob"]]
    0 [1] rfl rfl rfl rfl rfl rfl
  rw [hok]
  refine ⟨hhid, ?_, ?_⟩
  · rw [hsel]
    decide
  · rw [hdc]
    decide

end STDM
